import Mathlib

/-!
# Mapty: the workout controller of `src/JS/App.js`

A shallow embedding of the `App` class of `src/JS/App.js` and of the JavaScript
primitives it relies on, followed by the properties of the controller.

* JavaScript numbers are `JSNum`: the finite doubles are embedded in `ℚ` (every
  finite double is a rational number), with `NaN`, the two infinities and the
  negative zero as separate values.
* A handler is a function from the controller state to an `Outcome`: the state
  it leaves behind and the exception it threw, if any.  What a handler changed
  before it threw stays changed, as in JavaScript.
* The classes `Running` and `Cycling` are imported by `App.js` from files that
  are not part of the sources; they are modelled from the specification.
-/

namespace Mapty

/-! ## JavaScript numbers -/

/-- The values of the JavaScript type Number.  `fin q` is the finite number whose
real value is `q` (`fin 0` is the positive zero), `negZero` is `-0`. -/
inductive JSNum where
  | nan
  | posInf
  | negInf
  | negZero
  | fin (q : ℚ)
  deriving DecidableEq, Repr

/-- `Number.isFinite(x)` for a value of type Number. -/
def Number.isFinite : JSNum → Bool
  | JSNum.nan => false
  | JSNum.posInf => false
  | JSNum.negInf => false
  | JSNum.negZero => true
  | JSNum.fin _ => true

/-- `Number::lessThan(x, y)` of ECMAScript; `none` is the result `undefined`. -/
def Number.lessThan : JSNum → JSNum → Option Bool
  | JSNum.nan, _ => none
  | _, JSNum.nan => none
  | JSNum.posInf, _ => some false
  | JSNum.negInf, JSNum.negInf => some false
  | _, JSNum.posInf => some true
  | _, JSNum.negInf => some false
  | JSNum.negInf, _ => some true
  | JSNum.negZero, JSNum.negZero => some false
  | JSNum.negZero, JSNum.fin q => some (decide (0 < q))
  | JSNum.fin q, JSNum.negZero => some (decide (q < 0))
  | JSNum.fin p, JSNum.fin q => some (decide (p < q))

/-- The operator `x > y` on numbers: `IsLessThan(y, x)`, with `undefined` read as
`false`. -/
def JSNum.gt (x y : JSNum) : Bool :=
  match Number.lessThan y x with
  | some b => b
  | none => false

/-! ### Rounding to the nearest double -/

/-- The nearest integer to `n / d`, ties to the even one. -/
def roundHalfEven (n d : Nat) : Nat :=
  let q := n / d
  let r := n % d
  if 2 * r < d then q
  else if d < 2 * r then q + 1
  else if q % 2 = 0 then q else q + 1

/-- The number of binary digits of `n` (`fuel` bounds the recursion; `fuel = n`
is always enough). -/
def bitLength : Nat → Nat → Nat
  | 0, _ => 0
  | fuel + 1, n => if n = 0 then 0 else bitLength fuel (n / 2) + 1

/-- The exponent `e` with `2 ^ e ≤ n / d < 2 ^ (e + 1)`, for positive `n` and `d`. -/
def floorLog2 (n d : Nat) : Int :=
  let e : Int := (bitLength n n : Int) - (bitLength d d : Int)
  if e ≥ 0 then (if d * 2 ^ e.toNat ≤ n then e else e - 1)
  else (if d ≤ n * 2 ^ (-e).toNat then e else e - 1)

/-- The magnitude `n / d` rounded to the nearest binary64 value, ties to even;
`none` when the result is infinite. -/
def roundMagnitude (n d : Nat) : Option ℚ :=
  if n = 0 then some 0 else
  let e := max (floorLog2 n d) (-1022)
  let s := e - 52
  if s ≥ 0 then
    let m := roundHalfEven n (d * 2 ^ s.toNat)
    if 2 ^ 1024 ≤ m * 2 ^ s.toNat then none else some (mkRat (m * 2 ^ s.toNat : Nat) 1)
  else
    let m := roundHalfEven (n * 2 ^ (-s).toNat) d
    some (mkRat (m : Nat) (2 ^ (-s).toNat))

/-- The Number nearest to `± n / d`. -/
def roundToDouble (negative : Bool) (n d : Nat) : JSNum :=
  match roundMagnitude n d with
  | none => if negative then JSNum.negInf else JSNum.posInf
  | some q =>
    if q = 0 then (if negative then JSNum.negZero else JSNum.fin 0)
    else JSNum.fin (if negative then -q else q)

/-! ### Division -/

/-- The magnitude of a number. -/
inductive Magnitude where
  | notANumber
  | infinite
  | ratio (n d : Nat)
  deriving DecidableEq, Repr

/-- The magnitude of `x`. -/
def JSNum.magnitude : JSNum → Magnitude
  | JSNum.nan => Magnitude.notANumber
  | JSNum.posInf => Magnitude.infinite
  | JSNum.negInf => Magnitude.infinite
  | JSNum.negZero => Magnitude.ratio 0 1
  | JSNum.fin q => Magnitude.ratio q.num.natAbs q.den

/-- The sign bit of `x`. -/
def JSNum.isNegative : JSNum → Bool
  | JSNum.negInf => true
  | JSNum.negZero => true
  | JSNum.fin q => decide (q < 0)
  | _ => false

/-- The operator `x / y` on numbers (`Number::divide`). -/
def JSNum.div (x y : JSNum) : JSNum :=
  let negative := xor x.isNegative y.isNegative
  match x.magnitude, y.magnitude with
  | Magnitude.notANumber, _ => JSNum.nan
  | _, Magnitude.notANumber => JSNum.nan
  | Magnitude.infinite, Magnitude.infinite => JSNum.nan
  | Magnitude.infinite, Magnitude.ratio _ _ =>
    if negative then JSNum.negInf else JSNum.posInf
  | Magnitude.ratio _ _, Magnitude.infinite =>
    if negative then JSNum.negZero else JSNum.fin 0
  | Magnitude.ratio n d, Magnitude.ratio n' d' =>
    if n' = 0 then
      (if n = 0 then JSNum.nan else if negative then JSNum.negInf else JSNum.posInf)
    else roundToDouble negative (n * d') (d * n')

/-! ### The unary plus on strings (`StringToNumber`) -/

/-- The characters of `StrWhiteSpaceChar`: white space and line terminators. -/
def isStrWhiteSpaceChar (c : Char) : Bool :=
  decide (c.toNat ∈ [0x09, 0x0A, 0x0B, 0x0C, 0x0D, 0x20, 0xA0, 0x1680, 0x2028, 0x2029,
    0x202F, 0x205F, 0x3000, 0xFEFF]) || (decide (0x2000 ≤ c.toNat) && decide (c.toNat ≤ 0x200A))

/-- Strips leading and trailing white space. -/
def trimWhiteSpace (cs : List Char) : List Char :=
  ((cs.dropWhile isStrWhiteSpaceChar).reverse.dropWhile isStrWhiteSpaceChar).reverse

/-- The value of a digit, up to base 16. -/
def digitValue (c : Char) : Option Nat :=
  if '0'.toNat ≤ c.toNat ∧ c.toNat ≤ '9'.toNat then some (c.toNat - '0'.toNat)
  else if 'a'.toNat ≤ c.toNat ∧ c.toNat ≤ 'f'.toNat then some (c.toNat - 'a'.toNat + 10)
  else if 'A'.toNat ≤ c.toNat ∧ c.toNat ≤ 'F'.toNat then some (c.toNat - 'A'.toNat + 10)
  else none

/-- Whether `c` is a digit of the given base. -/
def isDigitIn (base : Nat) (c : Char) : Bool :=
  match digitValue c with
  | some v => decide (v < base)
  | none => false

/-- The mathematical value of a run of digits. -/
def digitsValue (base : Nat) (ds : List Char) : Nat :=
  ds.foldl (fun n c => base * n + (digitValue c).getD 0) 0

/-- The `ExponentPart` of a decimal literal, or nothing at all; `none` when what
follows the mantissa is neither. -/
def parseExponent (cs : List Char) : Option Int :=
  match cs with
  | [] => some 0
  | c :: rest =>
    if c = 'e' ∨ c = 'E' then
      let signed : Bool × List Char :=
        match rest with
        | '+' :: r => (false, r)
        | '-' :: r => (true, r)
        | r => (false, r)
      if signed.2 ≠ [] ∧ signed.2.all (isDigitIn 10) = true then
        some (if signed.1 then -(digitsValue 10 signed.2 : Int)
          else (digitsValue 10 signed.2 : Int))
      else none
    else none

/-- The Number for `± mantissa × 10 ^ e`. -/
def scaleDecimal (negative : Bool) (mantissa : Nat) (e : Int) : JSNum :=
  if e ≥ 0 then roundToDouble negative (mantissa * 10 ^ e.toNat) 1
  else roundToDouble negative mantissa (10 ^ (-e).toNat)

/-- The `StrUnsignedDecimalLiteral` production, under the sign already read. -/
def parseUnsignedDecimal (negative : Bool) (cs : List Char) : JSNum :=
  if cs = "Infinity".toList then (if negative then JSNum.negInf else JSNum.posInf)
  else
    let ip := cs.takeWhile (isDigitIn 10)
    match cs.dropWhile (isDigitIn 10) with
    | '.' :: r =>
      let fp := r.takeWhile (isDigitIn 10)
      if ip = [] ∧ fp = [] then JSNum.nan
      else
        match parseExponent (r.dropWhile (isDigitIn 10)) with
        | some e => scaleDecimal negative (digitsValue 10 (ip ++ fp)) (e - fp.length)
        | none => JSNum.nan
    | r =>
      if ip = [] then JSNum.nan
      else
        match parseExponent r with
        | some e => scaleDecimal negative (digitsValue 10 ip) e
        | none => JSNum.nan

/-- The `NonDecimalIntegerLiteral` production, after its prefix. -/
def parseNonDecimal (base : Nat) (ds : List Char) : JSNum :=
  if ds ≠ [] ∧ ds.all (isDigitIn base) = true then roundToDouble false (digitsValue base ds) 1
  else JSNum.nan

/-- The `StrNumericLiteral` production on trimmed text; the empty text is `+0`. -/
def parseNumericLiteral (cs : List Char) : JSNum :=
  match cs with
  | [] => JSNum.fin 0
  | '0' :: 'x' :: ds => parseNonDecimal 16 ds
  | '0' :: 'X' :: ds => parseNonDecimal 16 ds
  | '0' :: 'o' :: ds => parseNonDecimal 8 ds
  | '0' :: 'O' :: ds => parseNonDecimal 8 ds
  | '0' :: 'b' :: ds => parseNonDecimal 2 ds
  | '0' :: 'B' :: ds => parseNonDecimal 2 ds
  | '+' :: r => parseUnsignedDecimal false r
  | '-' :: r => parseUnsignedDecimal true r
  | r => parseUnsignedDecimal false r

/-- The unary plus applied to a string, as in `+inputDistance.value`. -/
def toNumber (s : String) : JSNum :=
  parseNumericLiteral (trimWhiteSpace s.toList)

/-! ## The workout model

`App.js` imports `Running` and `Cycling` from `./Running.js` and `./Cycling.js`,
which are not among the sources. -/

/-- A position `[lat, lng]`. -/
structure LatLng where
  lat : JSNum
  lng : JSNum
  deriving DecidableEq, Repr

/-- Modelled from the spec: the creation timestamp of a workout (`Running.js` and
`Cycling.js` are missing), of which only month and day are displayed. -/
structure Date where
  time : Nat
  month : Nat
  day : Nat
  deriving DecidableEq, Repr

/-- Modelled from the spec: the description of a workout (`Running.js` and
`Cycling.js` are missing), which combines the variant label with the month and
the day of the creation date.  The components are kept apart: the specification
does not fix the text. -/
structure Description where
  label : String
  month : Nat
  day : Nat
  deriving DecidableEq, Repr

/-- What the environment supplies when a workout is constructed: the identifier
assigned to it and the current date. -/
structure Creation where
  id : String
  date : Date
  deriving DecidableEq, Repr

/-- Modelled from the spec: the fields of the base class `Workout` (`Running.js`
and `Cycling.js` are missing). -/
structure WorkoutBase where
  id : String
  coords : LatLng
  distance : JSNum
  duration : JSNum
  date : Date
  description : Description
  deriving DecidableEq, Repr

/-- Modelled from the spec: the two workout variants (`Running.js` and
`Cycling.js` are missing); a `Running` carries its cadence and its pace, a
`Cycling` its elevation gain and its speed. -/
inductive Workout where
  | Running (base : WorkoutBase) (cadence : JSNum) (pace : JSNum)
  | Cycling (base : WorkoutBase) (elevationGain : JSNum) (speed : JSNum)
  deriving DecidableEq, Repr

/-- The fields shared by the two variants. -/
def Workout.base : Workout → WorkoutBase
  | Workout.Running b _ _ => b
  | Workout.Cycling b _ _ => b

/-- The type tag of a workout. -/
def Workout.type : Workout → String
  | Workout.Running _ _ _ => "running"
  | Workout.Cycling _ _ _ => "cycling"

/-- The field `id`. -/
def Workout.id (w : Workout) : String := w.base.id

/-- The field `coords`. -/
def Workout.coords (w : Workout) : LatLng := w.base.coords

/-- The field `distance`. -/
def Workout.distance (w : Workout) : JSNum := w.base.distance

/-- The field `duration`. -/
def Workout.duration (w : Workout) : JSNum := w.base.duration

/-- The field `description`. -/
def Workout.description (w : Workout) : Description := w.base.description

/-- Modelled from the spec: the constructor of `Running` (`Running.js` is
missing).  It stores its arguments, takes identifier and date from the
environment, and computes the pace `duration / distance` and the description. -/
def Running.new (c : Creation) (coords : LatLng) (distance duration cadence : JSNum) :
    Workout :=
  Workout.Running
    { id := c.id, coords := coords, distance := distance, duration := duration,
      date := c.date, description := ⟨"Running", c.date.month, c.date.day⟩ }
    cadence (duration.div distance)

/-- Modelled from the spec: the constructor of `Cycling` (`Cycling.js` is
missing).  It stores its arguments, takes identifier and date from the
environment, and computes the speed `distance / (duration / 60)` and the
description. -/
def Cycling.new (c : Creation) (coords : LatLng) (distance duration elevationGain : JSNum) :
    Workout :=
  Workout.Cycling
    { id := c.id, coords := coords, distance := distance, duration := duration,
      date := c.date, description := ⟨"Cycling", c.date.month, c.date.day⟩ }
    elevationGain (distance.div (duration.div (JSNum.fin 60)))

/-! ## The collaborators: the Leaflet map and the document -/

/-- The options of `L.popup`. -/
structure PopupOptions where
  maxWidth : Nat
  minWidth : Nat
  autoClose : Bool
  closeOnClick : Bool
  className : String
  deriving DecidableEq, Repr

/-- A marker added to the map, with its popup. -/
structure Marker where
  latlng : LatLng
  popup : PopupOptions
  icon : String
  content : Description
  isOpen : Bool
  deriving DecidableEq, Repr

/-- The options object passed to `setView`. -/
structure SetViewOptions where
  animate : Bool
  panDuration : Nat
  deriving DecidableEq, Repr

/-- One call of `setView` on the map. -/
structure SetViewCall where
  center : LatLng
  zoom : Nat
  options : Option SetViewOptions
  deriving DecidableEq, Repr

/-- A tile layer added to the map. -/
structure TileLayer where
  url : String
  attribution : String
  deriving DecidableEq, Repr

/-- The Leaflet map held in `#map`: what the controller has asked of it so far,
in the order of the requests. -/
structure LMap where
  container : String
  setViewCalls : List SetViewCall
  tileLayers : List TileLayer
  markers : List Marker
  clickListener : Bool
  deriving DecidableEq, Repr

/-- The event object of a click on the map. -/
structure MapEvent where
  latlng : LatLng
  deriving DecidableEq, Repr

/-- The element `form` and its inputs. -/
structure FormEl where
  hidden : Bool
  display : String
  inputType : String
  inputDistance : String
  inputDuration : String
  inputCadence : String
  inputElevation : String
  distanceFocused : Bool
  cadenceRowHidden : Bool
  elevationRowHidden : Bool
  deriving DecidableEq, Repr

/-- One `workout__details` block of a list entry; `fixed` tells that the value
is shown through `toFixed(1)`. -/
structure Detail where
  icon : String
  value : JSNum
  fixed : Bool
  unit : String
  deriving DecidableEq, Repr

/-- The `li` element that `_renderWorkout` writes for a workout. -/
structure ListEntry where
  className : String
  dataId : String
  title : Description
  details : List Detail
  deriving DecidableEq, Repr

/-- What `e.target.closest('.workout')` found for a click on the list. -/
structure WorkoutEl where
  dataId : String
  deriving DecidableEq, Repr

/-! ## The controller -/

/-- An exception thrown by a handler: `Error(message)`, or the `TypeError` of a
property read on `undefined`. -/
inductive JSError where
  | Error (message : String)
  | TypeError
  deriving DecidableEq, Repr

/-- The state of the application: the private fields of `App` (`#map`,
`#mapEvent`, `#workouts`), the form, the list entries that follow the form in
document order, the alerts shown so far and the number of pending timers of
`_hideForm`. -/
structure App where
  map : Option LMap
  mapEvent : Option MapEvent
  workouts : List (Option Workout)
  form : FormEl
  entries : List ListEntry
  alerts : List String
  timers : Nat
  deriving DecidableEq, Repr

/-- The field `#mapZoomLevel`, which is never assigned after its initialiser. -/
def App.mapZoomLevel : Nat := 13

/-- The result of running a handler: the state it leaves and what it threw. -/
structure Outcome where
  app : App
  thrown : Option JSError
  deriving DecidableEq, Repr

/-- The local function `isInputAnNumber` of `_newWorkout`. -/
def isInputAnNumber (inputs : List JSNum) : Bool :=
  inputs.all (fun input => Number.isFinite input)

/-- The local function `isInputAnPositiveNumber` of `_newWorkout`. -/
def isInputAnPositiveNumber (inputs : List JSNum) : Bool :=
  inputs.all (fun input => input.gt (JSNum.fin 0))

/-- The text of the alert and of the error of a rejected submission. -/
def positiveNumberMessage : String := "The value must be a positive number!"

/-- The method `_loadMap`: creates the map centred on the position at the fixed
zoom, adds the tile layer and listens to clicks. -/
def App._loadMap (position : LatLng) (s : App) : Outcome :=
  let coords := position
  let map : LMap :=
    { container := "map"
      setViewCalls := [⟨coords, App.mapZoomLevel, none⟩]
      tileLayers := [⟨"https://{s}.tile.openstreetmap.fr/hot/{z}/{x}/{y}.png",
        "&copy; <a href=\"https://www.openstreetmap.org/copyright\">OpenStreetMap</a> contributors"⟩]
      markers := []
      clickListener := true }
  { app := { s with map := some map }, thrown := none }

/-- The method `_showForm`. -/
def App._showForm (mapE : MapEvent) (s : App) : Outcome :=
  { app := { s with mapEvent := some mapE,
                    form := { s.form with hidden := false, distanceFocused := true } }
    thrown := none }

/-- The method `_hideForm`; the callback it schedules is `App.displayTimer`. -/
def App._hideForm (s : App) : Outcome :=
  { app := { s with
      form := { s.form with inputCadence := "", inputDistance := "", inputDuration := "",
                            inputElevation := "", display := "none", hidden := true }
      timers := s.timers + 1 }
    thrown := none }

/-- The callback of the `setTimeout` of `_hideForm`. -/
def App.displayTimer (s : App) : App :=
  { s with form := { s.form with display := "grid" }, timers := s.timers - 1 }

/-- The method `_toggleElevationField`. -/
def App._toggleElevationField (s : App) : Outcome :=
  { app := { s with form := { s.form with
      elevationRowHidden := !s.form.elevationRowHidden
      cadenceRowHidden := !s.form.cadenceRowHidden } }
    thrown := none }

/-- The method `_renderWorkoutMarker`.  Reading `workout.coords` of `undefined`
throws, and so does adding the marker to a map that is `undefined`. -/
def App._renderWorkoutMarker (workout : Option Workout) (s : App) : Outcome :=
  match workout with
  | none => { app := s, thrown := some JSError.TypeError }
  | some w =>
    match s.map with
    | none => { app := s, thrown := some JSError.TypeError }
    | some m =>
      let marker : Marker :=
        { latlng := w.coords
          popup := { maxWidth := 250, minWidth := 100, autoClose := false,
                     closeOnClick := false, className := w.type ++ "-popup" }
          icon := if w.type = "running" then "🏃‍♂️" else "🚴‍♀️"
          content := w.description
          isOpen := true }
      { app := { s with map := some { m with markers := m.markers ++ [marker] } }
        thrown := none }

/-- The method `_renderWorkout`: builds the list entry and inserts it right
after the form (`form.insertAdjacentHTML('afterend', html)`), that is before
every element that followed the form. -/
def App._renderWorkout (workout : Option Workout) (s : App) : Outcome :=
  match workout with
  | none => { app := s, thrown := some JSError.TypeError }
  | some w =>
    let html : ListEntry :=
      { className := "workout workout--" ++ w.type
        dataId := w.id
        title := w.description
        details :=
          [⟨if w.type = "running" then "🏃‍♂️" else "🚴‍♀️", w.distance, false, "km"⟩,
           ⟨"⏱", w.duration, false, "min"⟩] }
    let html : ListEntry :=
      match w with
      | Workout.Running _ cadence pace =>
        { html with details := html.details ++
            [⟨"⚡️", pace, true, "min/km"⟩, ⟨"🦶🏼", cadence, false, "spm"⟩] }
      | Workout.Cycling _ _ _ => html
    let html : ListEntry :=
      match w with
      | Workout.Cycling _ elevationGain speed =>
        { html with details := html.details ++
            [⟨"⚡️", speed, true, "km/h"⟩, ⟨"🗻 ", elevationGain, false, "m"⟩] }
      | Workout.Running _ _ _ => html
    { app := { s with entries := html :: s.entries }, thrown := none }

/-- The method `_newWorkout`, the handler of the form's `submit` event; `c` is
what the environment supplies to the constructor of the workout.  The call
`e.preventDefault()` touches nothing of the state and is left out; the read of
`this.#mapEvent.latlng` throws when no click is pending. -/
def App._newWorkout (c : Creation) (s : App) : Outcome :=
  let type := s.form.inputType
  let distance := toNumber s.form.inputDistance
  let duration := toNumber s.form.inputDuration
  match s.mapEvent with
  | none => { app := s, thrown := some JSError.TypeError }
  | some mapE =>
    let latlng : LatLng := mapE.latlng
    let rejected : Outcome :=
      { app := { s with alerts := s.alerts ++ [positiveNumberMessage] }
        thrown := some (JSError.Error positiveNumberMessage) }
    -- `if (type === 'running')`: the workout, or `none` when the check throws
    let running : Option (Option Workout) :=
      if type = "running" then
        let cadence := toNumber s.form.inputCadence
        let arrayOfRunningOptionValues := [distance, duration, cadence]
        if !isInputAnNumber arrayOfRunningOptionValues
            || !isInputAnPositiveNumber arrayOfRunningOptionValues then none
        else some (some (Running.new c latlng distance duration cadence))
      else some none
    match running with
    | none => rejected
    | some workout =>
      -- `if (type === 'cycling')`
      let cycling : Option (Option Workout) :=
        if type = "cycling" then
          let elevation := toNumber s.form.inputElevation
          let arrayOfElevationOptionValues := [distance, duration, elevation]
          if !isInputAnNumber arrayOfElevationOptionValues
              || !isInputAnPositiveNumber [distance, duration] then none
          else some (some (Cycling.new c latlng distance duration elevation))
        else some workout
      match cycling with
      | none => rejected
      | some workout =>
        let pushed : App := { s with workouts := s.workouts ++ [workout] }
        let marked := pushed._renderWorkoutMarker workout
        match marked.thrown with
        | some err => { app := marked.app, thrown := some err }
        | none =>
          let hiddenForm := marked.app._hideForm
          hiddenForm.app._renderWorkout workout

/-- The callback of `this.#workouts.find`: `el => el.id === id`, where reading
`el.id` of an `undefined` element throws. -/
def findById (id : String) : List (Option Workout) → Except JSError (Option Workout)
  | [] => Except.ok none
  | none :: _ => Except.error JSError.TypeError
  | some el :: rest => if el.id = id then Except.ok (some el) else findById id rest

/-- The method `_moveToPopup`, the handler of clicks on the list; `target` is
the result of `e.target.closest('.workout')`. -/
def App._moveToPopup (target : Option WorkoutEl) (s : App) : Outcome :=
  match target with
  | none => { app := s, thrown := some (JSError.Error "There is no workout element.") }
  | some workoutEl =>
    match findById workoutEl.dataId s.workouts with
    | Except.error err => { app := s, thrown := some err }
    | Except.ok workout =>
      match s.map with
      | none => { app := s, thrown := some JSError.TypeError }
      | some m =>
        match workout with
        | none => { app := s, thrown := some JSError.TypeError }
        | some w =>
          { app := { s with map := some { m with setViewCalls := m.setViewCalls ++
              [⟨w.coords, App.mapZoomLevel, some ⟨true, 1⟩⟩] } }
            thrown := none }

/-! ## The event loop -/

/-- The inputs of the form. -/
inductive Field where
  | distance
  | duration
  | cadence
  | elevation
  deriving DecidableEq, Repr

/-- What the environment delivers to the controller: the answer of the
geolocation request, a click on the map, the user typing into an input or
selecting an activity type, the submission of the form, a click on the list and
the timer of `_hideForm`. -/
inductive Event where
  | position (coords : LatLng)
  | positionError
  | mapClick (mapE : MapEvent)
  | input (field : Field) (value : String)
  | select (value : String)
  | submit (c : Creation)
  | listClick (target : Option WorkoutEl)
  | timer
  deriving DecidableEq, Repr

/-- The state after construction, for the given form of the document: the
geolocation request is pending and nothing else has happened. -/
def App.initial (form : FormEl) : App :=
  { map := none, mapEvent := none, workouts := [], form := form, entries := [],
    alerts := [], timers := 0 }

/-- The user typing `value` into an input. -/
def FormEl.setInput (f : FormEl) (field : Field) (value : String) : FormEl :=
  match field with
  | Field.distance => { f with inputDistance := value }
  | Field.duration => { f with inputDuration := value }
  | Field.cadence => { f with inputCadence := value }
  | Field.elevation => { f with inputElevation := value }

/-- One turn of the event loop: the listener registered for the event runs, and
an exception it throws ends that listener only.  The geolocation request
answers once, map clicks are delivered once the map listens, and a selection
that changes the activity type fires `change`. -/
def App.step (s : App) : Event → App
  | Event.position coords =>
    match s.map with
    | none => (s._loadMap coords).app
    | some _ => s
  | Event.positionError => { s with alerts := s.alerts ++ ["We cant get your location 😩"] }
  | Event.mapClick mapE =>
    match s.map with
    | none => s
    | some m => if m.clickListener then (s._showForm mapE).app else s
  | Event.input field value => { s with form := s.form.setInput field value }
  | Event.select value =>
    if value = s.form.inputType then s
    else (App._toggleElevationField { s with form := { s.form with inputType := value } }).app
  | Event.submit c => (s._newWorkout c).app
  | Event.listClick target => (s._moveToPopup target).app
  | Event.timer => if s.timers = 0 then s else s.displayTimer

/-- The state after a sequence of events. -/
def App.run (s : App) (events : List Event) : App :=
  events.foldl App.step s

/-! ## The vocabulary of the specification -/

/-- The real value of a number, in the rationals extended by the two infinities;
`NaN` has none. -/
def JSNum.value : JSNum → Option (WithBot (WithTop ℚ))
  | JSNum.nan => none
  | JSNum.posInf => some ((⊤ : WithTop ℚ) : WithBot (WithTop ℚ))
  | JSNum.negInf => some ⊥
  | JSNum.negZero => some 0
  | JSNum.fin q => some ((q : WithTop ℚ) : WithBot (WithTop ℚ))

/-- A value that is strictly greater than zero. -/
def JSNum.IsPositive (x : JSNum) : Prop :=
  ∃ v, x.value = some v ∧ 0 < v

/-- A finite number: neither `+Infinity`, `-Infinity` nor `NaN`. -/
def JSNum.IsFiniteNumber (x : JSNum) : Prop :=
  x ≠ JSNum.posInf ∧ x ≠ JSNum.negInf ∧ x ≠ JSNum.nan

/-- The number in the distance input, `+inputDistance.value`. -/
def FormEl.distance (f : FormEl) : JSNum := toNumber f.inputDistance

/-- The number in the duration input, `+inputDuration.value`. -/
def FormEl.duration (f : FormEl) : JSNum := toNumber f.inputDuration

/-- The number in the cadence input, `+inputCadence.value`. -/
def FormEl.cadence (f : FormEl) : JSNum := toNumber f.inputCadence

/-- The number in the elevation input, `+inputElevation.value`. -/
def FormEl.elevation (f : FormEl) : JSNum := toNumber f.inputElevation

/-- The validation policy for Running, in the words of the specification:
distance, duration and cadence are all finite and all strictly positive. -/
def RunningPolicy (distance duration cadence : JSNum) : Prop :=
  (distance.IsFiniteNumber ∧ duration.IsFiniteNumber ∧ cadence.IsFiniteNumber) ∧
    (distance.IsPositive ∧ duration.IsPositive ∧ cadence.IsPositive)

/-- The validation policy for Cycling, in the words of the specification:
distance, duration and elevation gain are all finite, distance and duration are
strictly positive. -/
def CyclingPolicy (distance duration elevation : JSNum) : Prop :=
  (distance.IsFiniteNumber ∧ duration.IsFiniteNumber ∧ elevation.IsFiniteNumber) ∧
    (distance.IsPositive ∧ duration.IsPositive)

/-- The field values of the form pass the validation of its activity type. -/
def FormEl.PassesValidation (f : FormEl) : Prop :=
  (f.inputType = "running" ∧ RunningPolicy f.distance f.duration f.cadence) ∨
    (f.inputType = "cycling" ∧ CyclingPolicy f.distance f.duration f.elevation)

/-- The submission was rejected: the alert was shown, the error was thrown, and
the collection, the map with its markers, the list entries, the form, the
pending click and the timers are what they were. -/
def Rejected (s : App) (out : Outcome) : Prop :=
  out.thrown = some (JSError.Error positiveNumberMessage) ∧
    out.app.alerts = s.alerts ++ [positiveNumberMessage] ∧
    out.app.workouts = s.workouts ∧
    out.app.map = s.map ∧
    out.app.entries = s.entries ∧
    out.app.form = s.form ∧
    out.app.mapEvent = s.mapEvent ∧
    out.app.timers = s.timers

/-- The submission was accepted with the workout `w`: the collection is the old
one followed by `w`. -/
def Accepted (s : App) (w : Workout) (out : Outcome) : Prop :=
  out.app.workouts = s.workouts ++ [some w]

/-- The last four statements of `_newWorkout`, from the push to the list
entry, for the value `workout` that the two branches left. -/
def App.pushAndRender (workout : Option Workout) (s : App) : Outcome :=
  let pushed : App := { s with workouts := s.workouts ++ [workout] }
  let marked := pushed._renderWorkoutMarker workout
  match marked.thrown with
  | some err => { app := marked.app, thrown := some err }
  | none => (marked.app._hideForm).app._renderWorkout workout

/-- The events of the user filling the form. -/
def fillForm (type distance duration cadence elevation : String) : List Event :=
  [Event.select type, Event.input Field.distance distance, Event.input Field.duration duration,
   Event.input Field.cadence cadence, Event.input Field.elevation elevation]

/-- An entry of the collection that is a workout with positive distance and
duration and, for a Running, positive cadence. -/
def WorkoutOk : Option Workout → Prop
  | none => False
  | some (Workout.Running base cadence _) =>
    base.distance.IsPositive ∧ base.duration.IsPositive ∧ cadence.IsPositive
  | some (Workout.Cycling base _ _) => base.distance.IsPositive ∧ base.duration.IsPositive

/-- The event selects no activity type other than `running` and `cycling`. -/
def Event.KnownType : Event → Prop
  | Event.select value => value = "running" ∨ value = "cycling"
  | _ => True

/-- The activity type of the form is known and every entry of the collection is
a valid workout. -/
def App.Inv (s : App) : Prop :=
  (s.form.inputType = "running" ∨ s.form.inputType = "cycling") ∧
    ∀ x ∈ s.workouts, WorkoutOk x

/-- One creation of a workout by the user: a click on the map, the values typed
into the form, and what the environment supplies at construction. -/
structure Submission where
  mapE : MapEvent
  type : String
  distance : String
  duration : String
  cadence : String
  elevation : String
  c : Creation
  deriving DecidableEq, Repr

/-- The events of one creation: the click, the filling of the form, the
submission. -/
def Submission.events (x : Submission) : List Event :=
  [Event.mapClick x.mapE] ++ fillForm x.type x.distance x.duration x.cadence x.elevation ++
    [Event.submit x.c]

/-- The values of the creation pass the validation of its activity type. -/
def Submission.Valid (x : Submission) : Prop :=
  (x.type = "running" ∧
      RunningPolicy (toNumber x.distance) (toNumber x.duration) (toNumber x.cadence)) ∨
    (x.type = "cycling" ∧
      CyclingPolicy (toNumber x.distance) (toNumber x.duration) (toNumber x.elevation))

/-- The state after a sequence of creations. -/
def App.createAll (s : App) (xs : List Submission) : App :=
  xs.foldl (fun s x => s.run x.events) s

/-! ## Concrete states -/

/-- A form as the page first shows it: hidden, empty, with `running` selected. -/
def exampleForm : FormEl :=
  { hidden := true, display := "", inputType := "running", inputDistance := "",
    inputDuration := "", inputCadence := "", inputElevation := "",
    distanceFocused := false, cadenceRowHidden := false, elevationRowHidden := true }

/-- A click on the map at `[52, 21]`. -/
def exampleClick : MapEvent := ⟨⟨JSNum.fin 52, JSNum.fin 21⟩⟩

/-- An identifier and a date for the first workout. -/
def creation1 : Creation := ⟨"1111111111", ⟨1700000000000, 10, 14⟩⟩

/-- An identifier and a date for the second workout. -/
def creation2 : Creation := ⟨"2222222222", ⟨1700000060000, 10, 14⟩⟩

/-- The state once the map has loaded at `[52, 20]`. -/
def mapReady : App :=
  (App.initial exampleForm).run [Event.position ⟨JSNum.fin 52, JSNum.fin 20⟩]

/-- The state with the form open after a click on the map. -/
def formOpen : App := mapReady.run [Event.mapClick exampleClick]

/-- The form open and filled with a valid Running submission: distance 5,
duration 30, cadence 150. -/
def runningFilled : App := formOpen.run (fillForm "running" "5" "30" "150" "")

/-- The state after that submission: one workout, marked and listed. -/
def oneWorkout : App := runningFilled.run [Event.submit creation1]

/-- A first creation: a run of 5 km in 30 min at cadence 150, at `[52, 21]`. -/
def firstSubmission : Submission :=
  ⟨exampleClick, "running", "5", "30", "150", "", creation1⟩

/-- A second creation: a ride of 10 km in 30 min with elevation gain -20, at
`[53, 22]`. -/
def secondSubmission : Submission :=
  ⟨⟨⟨JSNum.fin 53, JSNum.fin 22⟩⟩, "cycling", "10", "30", "", "-20", creation2⟩

/-- The state after the two creations. -/
def twoWorkouts : App := mapReady.createAll [firstSubmission, secondSubmission]

/-! ## Auxiliary lemmas -/

theorem bitLength_zero (fuel : Nat) : bitLength fuel 0 = 0 := by
  cases fuel <;> simp [bitLength]

/-- The fuel `n` is enough for `bitLength`: with `n ≤ fuel` the result `b` is the
number of binary digits of `n`, that is `n < 2 ^ b` and, for positive `n`,
`2 ^ (b - 1) ≤ n`. -/
theorem bitLength_bounds (fuel : Nat) :
    ∀ n : Nat, n ≤ fuel →
      n < 2 ^ bitLength fuel n ∧ (0 < n → 2 ^ (bitLength fuel n - 1) ≤ n) := by
  induction fuel with
  | zero =>
    intro n hn
    have h0 : n = 0 := by omega
    subst h0
    simp [bitLength]
  | succ fuel ih =>
    intro n hn
    by_cases h0 : n = 0
    · subst h0
      simp [bitLength]
    · have hhalf : n / 2 ≤ fuel := by omega
      obtain ⟨hlt, hge⟩ := ih (n / 2) hhalf
      have hb : bitLength (fuel + 1) n = bitLength fuel (n / 2) + 1 := by
        simp [bitLength, h0]
      rw [hb]
      constructor
      · rw [pow_succ]
        omega
      · intro _
        simp only [Nat.add_sub_cancel]
        by_cases h1 : n / 2 = 0
        · rw [h1, bitLength_zero]
          simp
          omega
        · have hpos : 0 < n / 2 := Nat.pos_of_ne_zero h1
          have hle := hge hpos
          have hbpos : 0 < bitLength fuel (n / 2) := by
            by_contra hz
            have : bitLength fuel (n / 2) = 0 := by omega
            rw [this] at hlt
            simp at hlt
            omega
          obtain ⟨k, hk⟩ : ∃ k, bitLength fuel (n / 2) = k + 1 :=
            ⟨_, (Nat.succ_pred_eq_of_pos hbpos).symm⟩
          rw [hk] at hle ⊢
          simp only [Nat.add_sub_cancel] at hle
          rw [pow_succ]
          omega

theorem JSNum.gt_zero_iff (x : JSNum) : x.gt (JSNum.fin 0) = true ↔ x.IsPositive := by
  cases x <;> simp [JSNum.gt, Number.lessThan, JSNum.IsPositive, JSNum.value]
  exact WithBot.coe_lt_coe.mpr (WithTop.coe_lt_top (0 : ℚ))

theorem Number.isFinite_iff (x : JSNum) : Number.isFinite x = true ↔ x.IsFiniteNumber := by
  cases x <;> simp [Number.isFinite, JSNum.IsFiniteNumber]

theorem isInputAnNumber_iff_forall (inputs : List JSNum) :
    isInputAnNumber inputs = true ↔ ∀ x ∈ inputs, x.IsFiniteNumber := by
  simp [isInputAnNumber, List.all_eq_true, Number.isFinite_iff]

theorem isInputAnPositiveNumber_iff_forall (inputs : List JSNum) :
    isInputAnPositiveNumber inputs = true ↔ ∀ x ∈ inputs, x.IsPositive := by
  simp [isInputAnPositiveNumber, List.all_eq_true, JSNum.gt_zero_iff]

/-! ## The validation predicates -/

/-- C9: `isInputAnPositiveNumber` is true exactly when every value of the list is
strictly greater than zero; it is false for `[5, 0, 3]`, true for `[5, 1, 3]`, and
false for every list that holds a `NaN`. -/
theorem isInputAnPositiveNumber_spec :
    (∀ inputs : List JSNum,
      isInputAnPositiveNumber inputs = true ↔ ∀ x ∈ inputs, x.IsPositive) ∧
    isInputAnPositiveNumber [JSNum.fin 5, JSNum.fin 0, JSNum.fin 3] = false ∧
    isInputAnPositiveNumber [JSNum.fin 5, JSNum.fin 1, JSNum.fin 3] = true ∧
    (∀ inputs : List JSNum, JSNum.nan ∈ inputs → isInputAnPositiveNumber inputs = false) := by
  refine ⟨isInputAnPositiveNumber_iff_forall, by decide, by decide, ?_⟩
  intro inputs hmem
  rw [← Bool.not_eq_true, isInputAnPositiveNumber_iff_forall]
  intro hall
  have hpos := hall _ hmem
  simp [JSNum.IsPositive, JSNum.value] at hpos

/-- C10: `isInputAnNumber` is true exactly when every value of the list is a
finite number, neither an infinity nor `NaN`; it is false for `[5, Infinity]`. -/
theorem isInputAnNumber_spec :
    (∀ inputs : List JSNum,
      isInputAnNumber inputs = true ↔ ∀ x ∈ inputs, x.IsFiniteNumber) ∧
    isInputAnNumber [JSNum.fin 5, JSNum.posInf] = false := by
  exact ⟨isInputAnNumber_iff_forall, by decide⟩

/-! ## The submission of the form -/

theorem runningPolicy_iff (d t c : JSNum) :
    RunningPolicy d t c ↔
      (isInputAnNumber [d, t, c] = true ∧ isInputAnPositiveNumber [d, t, c] = true) := by
  simp [RunningPolicy, isInputAnNumber_iff_forall, isInputAnPositiveNumber_iff_forall]

theorem cyclingPolicy_iff (d t e : JSNum) :
    CyclingPolicy d t e ↔
      (isInputAnNumber [d, t, e] = true ∧ isInputAnPositiveNumber [d, t] = true) := by
  simp [CyclingPolicy, isInputAnNumber_iff_forall, isInputAnPositiveNumber_iff_forall]

theorem newWorkout_running_invalid (c : Creation) (s : App) (mapE : MapEvent)
    (hpending : s.mapEvent = some mapE) (htype : s.form.inputType = "running")
    (hinvalid : ¬ RunningPolicy s.form.distance s.form.duration s.form.cadence) :
    s._newWorkout c =
      { app := { s with alerts := s.alerts ++ [positiveNumberMessage] }
        thrown := some (JSError.Error positiveNumberMessage) } := by
  rw [runningPolicy_iff] at hinvalid
  simp only [FormEl.distance, FormEl.duration, FormEl.cadence] at hinvalid
  unfold App._newWorkout
  simp only [hpending, htype]
  by_cases h1 : isInputAnNumber
      [toNumber s.form.inputDistance, toNumber s.form.inputDuration,
        toNumber s.form.inputCadence] = true
  · have h2 : isInputAnPositiveNumber
        [toNumber s.form.inputDistance, toNumber s.form.inputDuration,
          toNumber s.form.inputCadence] = false := by
      simpa [h1] using hinvalid
    simp [h1, h2]
  · simp [h1]

theorem newWorkout_running_valid (c : Creation) (s : App) (mapE : MapEvent)
    (hpending : s.mapEvent = some mapE) (htype : s.form.inputType = "running")
    (hvalid : RunningPolicy s.form.distance s.form.duration s.form.cadence) :
    s._newWorkout c =
      s.pushAndRender (some (Running.new c mapE.latlng s.form.distance s.form.duration
        s.form.cadence)) := by
  rw [runningPolicy_iff] at hvalid
  simp only [FormEl.distance, FormEl.duration, FormEl.cadence] at hvalid ⊢
  unfold App._newWorkout App.pushAndRender
  simp [hpending, htype, hvalid.1, hvalid.2]

theorem newWorkout_cycling_invalid (c : Creation) (s : App) (mapE : MapEvent)
    (hpending : s.mapEvent = some mapE) (htype : s.form.inputType = "cycling")
    (hinvalid : ¬ CyclingPolicy s.form.distance s.form.duration s.form.elevation) :
    s._newWorkout c =
      { app := { s with alerts := s.alerts ++ [positiveNumberMessage] }
        thrown := some (JSError.Error positiveNumberMessage) } := by
  rw [cyclingPolicy_iff] at hinvalid
  simp only [FormEl.distance, FormEl.duration, FormEl.elevation] at hinvalid
  unfold App._newWorkout
  simp only [hpending, htype]
  by_cases h1 : isInputAnNumber
      [toNumber s.form.inputDistance, toNumber s.form.inputDuration,
        toNumber s.form.inputElevation] = true
  · have h2 : isInputAnPositiveNumber
        [toNumber s.form.inputDistance, toNumber s.form.inputDuration] = false := by
      simpa [h1] using hinvalid
    simp [h1, h2]
  · simp [h1]

theorem newWorkout_cycling_valid (c : Creation) (s : App) (mapE : MapEvent)
    (hpending : s.mapEvent = some mapE) (htype : s.form.inputType = "cycling")
    (hvalid : CyclingPolicy s.form.distance s.form.duration s.form.elevation) :
    s._newWorkout c =
      s.pushAndRender (some (Cycling.new c mapE.latlng s.form.distance s.form.duration
        s.form.elevation)) := by
  rw [cyclingPolicy_iff] at hvalid
  simp only [FormEl.distance, FormEl.duration, FormEl.elevation] at hvalid ⊢
  unfold App._newWorkout App.pushAndRender
  simp [hpending, htype, hvalid.1, hvalid.2]

theorem pushAndRender_workouts (workout : Option Workout) (s : App) :
    (s.pushAndRender workout).app.workouts = s.workouts ++ [workout] := by
  unfold App.pushAndRender App._renderWorkoutMarker App._renderWorkout App._hideForm
  cases workout with
  | none => simp
  | some w =>
    cases hm : s.map with
    | none => simp [hm]
    | some m => simp [hm]

theorem rejected_of_eq (s : App) (out : Outcome)
    (h : out = { app := { s with alerts := s.alerts ++ [positiveNumberMessage] }
                 thrown := some (JSError.Error positiveNumberMessage) }) :
    Rejected s out := by
  subst h
  simp [Rejected]

theorem not_accepted_of_rejected (s : App) (out : Outcome) (h : Rejected s out)
    (w : Workout) : ¬ Accepted s w out := by
  intro hacc
  have hw := h.2.2.1
  rw [Accepted, hw] at hacc
  simp at hacc

theorem not_passes_of_nan (f : FormEl) (h : f.distance = JSNum.nan) :
    ¬ f.PassesValidation := by
  intro hv
  rcases hv with ⟨_, hp⟩ | ⟨_, hp⟩
  · exact hp.1.1.2.2 h
  · exact hp.1.1.2.2 h

theorem newWorkout_rejected_of_not_passes (c : Creation) (s : App) (mapE : MapEvent)
    (hpending : s.mapEvent = some mapE)
    (htype : s.form.inputType = "running" ∨ s.form.inputType = "cycling")
    (hinvalid : ¬ s.form.PassesValidation) : Rejected s (s._newWorkout c) := by
  rcases htype with ht | ht
  · apply rejected_of_eq
    apply newWorkout_running_invalid c s mapE hpending ht
    intro hp
    exact hinvalid (Or.inl ⟨ht, hp⟩)
  · apply rejected_of_eq
    apply newWorkout_cycling_invalid c s mapE hpending ht
    intro hp
    exact hinvalid (Or.inr ⟨ht, hp⟩)

/-- C1: in a state with a pending map click, a submission of type `running` or
`cycling` whose field values fail the validation of that type (in particular one
whose distance field parses to `NaN`) is rejected: the alert is shown, and the
collection, the markers, the list entries, the form and the pending click are
what they were before. -/
theorem newWorkout_rejects_invalid (c : Creation) (s : App) (mapE : MapEvent)
    (hpending : s.mapEvent = some mapE)
    (htype : s.form.inputType = "running" ∨ s.form.inputType = "cycling") :
    (¬ s.form.PassesValidation → Rejected s (s._newWorkout c)) ∧
      (s.form.distance = JSNum.nan → Rejected s (s._newWorkout c)) := by
  constructor
  · exact newWorkout_rejected_of_not_passes c s mapE hpending htype
  · intro hnan
    exact newWorkout_rejected_of_not_passes c s mapE hpending htype
      (not_passes_of_nan s.form hnan)

/-- The witness of C1: the form open after a click, type `running`, with `abc` in
the distance field. -/
theorem newWorkout_rejects_invalid_witness :
    (formOpen.run (fillForm "running" "abc" "30" "150" "")).mapEvent = some exampleClick ∧
    (formOpen.run (fillForm "running" "abc" "30" "150" "")).form.distance = JSNum.nan ∧
    Rejected (formOpen.run (fillForm "running" "abc" "30" "150" ""))
      ((formOpen.run (fillForm "running" "abc" "30" "150" ""))._newWorkout creation1) :=
  ⟨by decide, by decide,
    (newWorkout_rejects_invalid creation1
      (formOpen.run (fillForm "running" "abc" "30" "150" "")) exampleClick
      (by decide) (by decide)).2 (by decide)⟩

/-- C2: in a state with a pending map click, a submission of type `running` is
accepted (a Running workout is constructed from the click and the three values
and appended to the collection) if and only if distance, duration and cadence
are all finite and all strictly greater than zero; otherwise it is rejected. -/
theorem newWorkout_running_accepts_iff (c : Creation) (s : App) (mapE : MapEvent)
    (hpending : s.mapEvent = some mapE) (htype : s.form.inputType = "running") :
    ((∃ w, Accepted s w (s._newWorkout c)) ↔
        RunningPolicy s.form.distance s.form.duration s.form.cadence) ∧
      (RunningPolicy s.form.distance s.form.duration s.form.cadence →
        Accepted s (Running.new c mapE.latlng s.form.distance s.form.duration s.form.cadence)
          (s._newWorkout c)) ∧
      (¬ RunningPolicy s.form.distance s.form.duration s.form.cadence →
        Rejected s (s._newWorkout c)) := by
  have hacc : RunningPolicy s.form.distance s.form.duration s.form.cadence →
      Accepted s (Running.new c mapE.latlng s.form.distance s.form.duration s.form.cadence)
        (s._newWorkout c) := by
    intro hp
    rw [Accepted, newWorkout_running_valid c s mapE hpending htype hp, pushAndRender_workouts]
  have hrej : ¬ RunningPolicy s.form.distance s.form.duration s.form.cadence →
      Rejected s (s._newWorkout c) := fun hn =>
    rejected_of_eq s _ (newWorkout_running_invalid c s mapE hpending htype hn)
  refine ⟨⟨?_, fun hp => ⟨_, hacc hp⟩⟩, hacc, hrej⟩
  rintro ⟨w, hw⟩
  by_contra hn
  exact not_accepted_of_rejected s _ (hrej hn) w hw

/-- The witness of C2: distance 5, duration 30 and cadence 150 are accepted. -/
theorem newWorkout_running_accepts_iff_witness :
    (formOpen.run (fillForm "running" "5" "30" "150" "")).mapEvent = some exampleClick ∧
    (formOpen.run (fillForm "running" "5" "30" "150" "")).form.inputType = "running" ∧
    Accepted (formOpen.run (fillForm "running" "5" "30" "150" ""))
      (Running.new creation1 exampleClick.latlng (JSNum.fin 5) (JSNum.fin 30) (JSNum.fin 150))
      ((formOpen.run (fillForm "running" "5" "30" "150" ""))._newWorkout creation1) :=
  ⟨by decide, by decide,
    (newWorkout_running_accepts_iff creation1
      (formOpen.run (fillForm "running" "5" "30" "150" "")) exampleClick
      (by decide) (by decide)).2.1
      ((runningPolicy_iff _ _ _).mpr ⟨by decide, by decide⟩)⟩

/-- C3: in a state with a pending map click, a submission of type `cycling` is
accepted if and only if distance, duration and elevation are all finite and
distance and duration are strictly greater than zero, whatever the sign of the
elevation; otherwise it is rejected. -/
theorem newWorkout_cycling_accepts_iff (c : Creation) (s : App) (mapE : MapEvent)
    (hpending : s.mapEvent = some mapE) (htype : s.form.inputType = "cycling") :
    ((∃ w, Accepted s w (s._newWorkout c)) ↔
        ((s.form.distance.IsFiniteNumber ∧ s.form.duration.IsFiniteNumber ∧
            s.form.elevation.IsFiniteNumber) ∧
          (s.form.distance.IsPositive ∧ s.form.duration.IsPositive))) ∧
      (CyclingPolicy s.form.distance s.form.duration s.form.elevation →
        Accepted s
          (Cycling.new c mapE.latlng s.form.distance s.form.duration s.form.elevation)
          (s._newWorkout c)) ∧
      (¬ CyclingPolicy s.form.distance s.form.duration s.form.elevation →
        Rejected s (s._newWorkout c)) := by
  have hacc : CyclingPolicy s.form.distance s.form.duration s.form.elevation →
      Accepted s
        (Cycling.new c mapE.latlng s.form.distance s.form.duration s.form.elevation)
        (s._newWorkout c) := by
    intro hp
    rw [Accepted, newWorkout_cycling_valid c s mapE hpending htype hp, pushAndRender_workouts]
  have hrej : ¬ CyclingPolicy s.form.distance s.form.duration s.form.elevation →
      Rejected s (s._newWorkout c) := fun hn =>
    rejected_of_eq s _ (newWorkout_cycling_invalid c s mapE hpending htype hn)
  refine ⟨⟨?_, fun hp => ⟨_, hacc hp⟩⟩, hacc, hrej⟩
  rintro ⟨w, hw⟩
  by_contra hn
  exact not_accepted_of_rejected s _ (hrej hn) w hw

/-- The witness of C3: elevation -20 with distance 10 and duration 30 is accepted,
and the workout has speed 20; the same with distance -10 is rejected. -/
theorem newWorkout_cycling_accepts_iff_witness :
    (formOpen.run (fillForm "cycling" "10" "30" "" "-20")).mapEvent = some exampleClick ∧
    (formOpen.run (fillForm "cycling" "10" "30" "" "-20")).form.inputType = "cycling" ∧
    Accepted (formOpen.run (fillForm "cycling" "10" "30" "" "-20"))
      (Workout.Cycling
        { id := creation1.id, coords := exampleClick.latlng, distance := JSNum.fin 10,
          duration := JSNum.fin 30, date := creation1.date,
          description := ⟨"Cycling", 10, 14⟩ }
        (JSNum.fin (-20)) (JSNum.fin 20))
      ((formOpen.run (fillForm "cycling" "10" "30" "" "-20"))._newWorkout creation1) ∧
    Rejected (formOpen.run (fillForm "cycling" "-10" "30" "" "-20"))
      ((formOpen.run (fillForm "cycling" "-10" "30" "" "-20"))._newWorkout creation1) :=
  ⟨by decide, by decide,
    (newWorkout_cycling_accepts_iff creation1
      (formOpen.run (fillForm "cycling" "10" "30" "" "-20")) exampleClick
      (by decide) (by decide)).2.1
      ((cyclingPolicy_iff _ _ _).mpr ⟨by decide, by decide⟩),
    (newWorkout_cycling_accepts_iff creation1
      (formOpen.run (fillForm "cycling" "-10" "30" "" "-20")) exampleClick
      (by decide) (by decide)).2.2
      (fun hp => absurd ((cyclingPolicy_iff _ _ _).mp hp).2 (by decide))⟩

/-- C4: in a state with a pending map click at `mapE.latlng`, a submission that
passes validation leaves the collection equal to the old one followed by exactly
one new workout: one entry more, the earlier entries unchanged at their
positions, and the new workout constructed from the coordinates of the click and
the submitted distance, duration and cadence (Running) or elevation (Cycling),
in that order. -/
theorem newWorkout_appends (c : Creation) (s : App) (mapE : MapEvent)
    (hpending : s.mapEvent = some mapE) (hvalid : s.form.PassesValidation) :
    ∃ w : Workout,
      (s._newWorkout c).app.workouts = s.workouts ++ [some w] ∧
      (s._newWorkout c).app.workouts.length = s.workouts.length + 1 ∧
      (∀ i, i < s.workouts.length → (s._newWorkout c).app.workouts[i]? = s.workouts[i]?) ∧
      w.coords = mapE.latlng ∧
      w.distance = s.form.distance ∧
      w.duration = s.form.duration ∧
      ((s.form.inputType = "running" ∧
          w = Running.new c mapE.latlng s.form.distance s.form.duration s.form.cadence) ∨
        (s.form.inputType = "cycling" ∧
          w = Cycling.new c mapE.latlng s.form.distance s.form.duration s.form.elevation)) := by
  have key : ∀ w : Workout, (s._newWorkout c).app.workouts = s.workouts ++ [some w] →
      (s._newWorkout c).app.workouts = s.workouts ++ [some w] ∧
      (s._newWorkout c).app.workouts.length = s.workouts.length + 1 ∧
      (∀ i, i < s.workouts.length →
        (s._newWorkout c).app.workouts[i]? = s.workouts[i]?) := by
    intro w hw
    refine ⟨hw, by simp [hw], ?_⟩
    intro i hi
    rw [hw, List.getElem?_append_left hi]
  rcases hvalid with ⟨ht, hp⟩ | ⟨ht, hp⟩
  · refine ⟨Running.new c mapE.latlng s.form.distance s.form.duration s.form.cadence, ?_⟩
    have hw := key _ (by
      rw [newWorkout_running_valid c s mapE hpending ht hp, pushAndRender_workouts])
    exact ⟨hw.1, hw.2.1, hw.2.2, rfl, rfl, rfl, Or.inl ⟨ht, rfl⟩⟩
  · refine ⟨Cycling.new c mapE.latlng s.form.distance s.form.duration s.form.elevation, ?_⟩
    have hw := key _ (by
      rw [newWorkout_cycling_valid c s mapE hpending ht hp, pushAndRender_workouts])
    exact ⟨hw.1, hw.2.1, hw.2.2, rfl, rfl, rfl, Or.inr ⟨ht, rfl⟩⟩

/-- The witness of C4: the valid Running submission at the click `[52, 21]`. -/
theorem newWorkout_appends_witness :
    runningFilled.mapEvent = some exampleClick ∧
    runningFilled.form.PassesValidation ∧
    ∃ w : Workout,
      (runningFilled._newWorkout creation1).app.workouts = runningFilled.workouts ++ [some w] ∧
      w.coords = ⟨JSNum.fin 52, JSNum.fin 21⟩ ∧
      w.distance = JSNum.fin 5 ∧
      w.duration = JSNum.fin 30 :=
  ⟨by decide, Or.inl ⟨by decide, (runningPolicy_iff _ _ _).mpr ⟨by decide, by decide⟩⟩,
    (newWorkout_appends creation1 runningFilled exampleClick (by decide)
      (Or.inl ⟨by decide, (runningPolicy_iff _ _ _).mpr ⟨by decide, by decide⟩⟩)).imp
      (fun _ h => ⟨h.1, h.2.2.2.1, h.2.2.2.2.1, h.2.2.2.2.2.1⟩)⟩

/-! ## The click on a list entry -/

theorem findById_first (id : String) (workouts : List (Option Workout))
    (hdefined : ∀ x ∈ workouts, x ≠ none)
    (hmatch : ∃ w : Workout, some w ∈ workouts ∧ w.id = id) :
    ∃ (before after : List (Option Workout)) (w : Workout),
      workouts = before ++ some w :: after ∧
      (∀ v : Workout, some v ∈ before → v.id ≠ id) ∧
      w.id = id ∧
      findById id workouts = Except.ok (some w) := by
  induction workouts with
  | nil =>
    obtain ⟨w, hw, _⟩ := hmatch
    simp at hw
  | cons x rest ih =>
    cases x with
    | none => exact absurd rfl (hdefined none (List.mem_cons_self _ _))
    | some el =>
      by_cases hid : el.id = id
      · exact ⟨[], rest, el, rfl, by simp, hid, by simp [findById, hid]⟩
      · have hrest : ∃ w : Workout, some w ∈ rest ∧ w.id = id := by
          obtain ⟨w, hw, hwid⟩ := hmatch
          rcases List.mem_cons.mp hw with h | h
          · cases h
            exact absurd hwid hid
          · exact ⟨w, h, hwid⟩
        obtain ⟨before, after, w, hsplit, hbefore, hwid, hfind⟩ :=
          ih (fun x hx => hdefined x (List.mem_cons_of_mem _ hx)) hrest
        refine ⟨some el :: before, after, w, by simp [hsplit], ?_, hwid, by
          simp [findById, hid, hfind]⟩
        intro v hv
        rcases List.mem_cons.mp hv with h | h
        · cases h
          exact hid
        · exact hbefore v h

theorem findById_none (id : String) (workouts : List (Option Workout))
    (hnomatch : ∀ w : Workout, some w ∈ workouts → w.id ≠ id) :
    findById id workouts = Except.ok none ∨
      findById id workouts = Except.error JSError.TypeError := by
  induction workouts with
  | nil => exact Or.inl rfl
  | cons x rest ih =>
    cases x with
    | none => exact Or.inr rfl
    | some el =>
      have hid : el.id ≠ id := hnomatch el (List.mem_cons_self _ _)
      have := ih (fun w hw => hnomatch w (List.mem_cons_of_mem _ hw))
      simpa [findById, hid] using this

/-- What `_moveToPopup` does when no workout of the collection has the identifier of
the clicked entry: it throws a `TypeError` and changes nothing, in every state. -/
theorem moveToPopup_unknown_id_throws (s : App) (workoutEl : WorkoutEl)
    (hnomatch : ∀ w : Workout, some w ∈ s.workouts → w.id ≠ workoutEl.dataId) :
    s._moveToPopup (some workoutEl) = { app := s, thrown := some JSError.TypeError } := by
  unfold App._moveToPopup
  rcases findById_none workoutEl.dataId s.workouts hnomatch with h | h
  · cases hm : s.map <;> simp [h, hm]
  · simp [h]

/-- C5 on the code: in the state with one workout, whose identifier is
`1111111111`, a click on an entry whose identifier is `9999999999` issues no
`setView` request, but the handler does not complete: it throws a `TypeError`. -/
theorem moveToPopup_unknown_id_example :
    oneWorkout.workouts.map (Option.map Workout.id) = [some "1111111111"] ∧
    (oneWorkout._moveToPopup (some ⟨"9999999999"⟩)).thrown = some JSError.TypeError ∧
    (oneWorkout._moveToPopup (some ⟨"9999999999"⟩)).app = oneWorkout := by
  decide

/-- C6: when the map is loaded, the collection holds workouts only and the
identifier of the clicked entry is that of some workout of the collection, the
handler completes, leaves the collection unchanged and issues exactly one
`setView` request, to the coordinates of the first workout with that identifier,
at zoom 13. -/
theorem moveToPopup_pans_to_first_match (s : App) (m : LMap) (workoutEl : WorkoutEl)
    (hmap : s.map = some m)
    (hdefined : ∀ x ∈ s.workouts, x ≠ none)
    (hmatch : ∃ w : Workout, some w ∈ s.workouts ∧ w.id = workoutEl.dataId) :
    ∃ (before after : List (Option Workout)) (w : Workout),
      s.workouts = before ++ some w :: after ∧
      (∀ v : Workout, some v ∈ before → v.id ≠ workoutEl.dataId) ∧
      w.id = workoutEl.dataId ∧
      (s._moveToPopup (some workoutEl)).thrown = none ∧
      (s._moveToPopup (some workoutEl)).app.workouts = s.workouts ∧
      (s._moveToPopup (some workoutEl)).app.map =
        some { m with setViewCalls := m.setViewCalls ++ [⟨w.coords, 13, some ⟨true, 1⟩⟩] } ∧
      (s._moveToPopup (some workoutEl)).app =
        { s with map := (s._moveToPopup (some workoutEl)).app.map } := by
  obtain ⟨before, after, w, hsplit, hbefore, hwid, hfind⟩ :=
    findById_first workoutEl.dataId s.workouts hdefined hmatch
  refine ⟨before, after, w, hsplit, hbefore, hwid, ?_⟩
  unfold App._moveToPopup
  simp [hfind, hmap, App.mapZoomLevel]

/-- The witness of C6: a click on the entry of the one workout of the collection
pans to `[52, 21]`, where the workout was created. -/
theorem moveToPopup_pans_to_first_match_witness :
    (∃ w : Workout, some w ∈ oneWorkout.workouts ∧ w.id = "1111111111") ∧
    ∃ (before after : List (Option Workout)) (w : Workout),
      oneWorkout.workouts = before ++ some w :: after ∧
      w.id = "1111111111" ∧
      w.coords = ⟨JSNum.fin 52, JSNum.fin 21⟩ ∧
      (oneWorkout._moveToPopup (some ⟨"1111111111"⟩)).thrown = none := by
  have hmatch : ∃ w : Workout, some w ∈ oneWorkout.workouts ∧ w.id = "1111111111" :=
    ⟨Running.new creation1 exampleClick.latlng (JSNum.fin 5) (JSNum.fin 30) (JSNum.fin 150),
      by decide, by decide⟩
  obtain ⟨m, hm⟩ : ∃ m, oneWorkout.map = some m := Option.isSome_iff_exists.mp (by decide)
  obtain ⟨before, after, w, h1, h2, h3, h4, _⟩ :=
    moveToPopup_pans_to_first_match oneWorkout m ⟨"1111111111"⟩ hm (by decide) hmatch
  refine ⟨hmatch, before, after, w, h1, h3, ?_, h4⟩
  have hw : some w ∈ oneWorkout.workouts := by
    rw [h1]
    simp
  have hall : ∀ x ∈ oneWorkout.workouts,
      x.map Workout.coords = some ⟨JSNum.fin 52, JSNum.fin 21⟩ := by decide
  simpa using hall _ hw

/-! ## The order of the rendered list -/

theorem fillForm_run (s : App) (type distance duration cadence elevation : String) :
    (s.run (fillForm type distance duration cadence elevation)).form.inputType = type ∧
    (s.run (fillForm type distance duration cadence elevation)).form.inputDistance = distance ∧
    (s.run (fillForm type distance duration cadence elevation)).form.inputDuration = duration ∧
    (s.run (fillForm type distance duration cadence elevation)).form.inputCadence = cadence ∧
    (s.run (fillForm type distance duration cadence elevation)).form.inputElevation = elevation ∧
    (s.run (fillForm type distance duration cadence elevation)).map = s.map ∧
    (s.run (fillForm type distance duration cadence elevation)).mapEvent = s.mapEvent ∧
    (s.run (fillForm type distance duration cadence elevation)).workouts = s.workouts ∧
    (s.run (fillForm type distance duration cadence elevation)).entries = s.entries := by
  by_cases h : type = s.form.inputType
  · simp [fillForm, App.run, App.step, FormEl.setInput, h]
  · simp [fillForm, App.run, App.step, FormEl.setInput, App._toggleElevationField, h]

theorem pushAndRender_loaded (w : Workout) (s : App) (m : LMap) (hm : s.map = some m) :
    (s.pushAndRender (some w)).thrown = none ∧
    (s.pushAndRender (some w)).app.workouts = s.workouts ++ [some w] ∧
    (∃ entry : ListEntry, entry.dataId = w.id ∧
      (s.pushAndRender (some w)).app.entries = entry :: s.entries) ∧
    (∃ m' : LMap, (s.pushAndRender (some w)).app.map = some m' ∧
      m'.clickListener = m.clickListener ∧ m'.setViewCalls = m.setViewCalls) := by
  unfold App.pushAndRender App._renderWorkoutMarker App._renderWorkout App._hideForm
  cases w <;> simp [hm]

theorem create_step (s : App) (m : LMap) (x : Submission) (hm : s.map = some m)
    (hl : m.clickListener = true) (hv : x.Valid) :
    ∃ (w : Workout) (entry : ListEntry) (m' : LMap),
      w.id = x.c.id ∧ entry.dataId = x.c.id ∧
      (s.run x.events).workouts = s.workouts ++ [some w] ∧
      (s.run x.events).entries = entry :: s.entries ∧
      (s.run x.events).map = some m' ∧ m'.clickListener = true := by
  have hrun : s.run x.events =
      ((((s._showForm x.mapE).app.run
        (fillForm x.type x.distance x.duration x.cadence x.elevation))._newWorkout x.c).app) := by
    simp [Submission.events, App.run, List.foldl_append, App.step, hm, hl]
  obtain ⟨ht, hd, hdu, hc, he, hmap, hme, hw, hen⟩ :=
    fillForm_run (s._showForm x.mapE).app x.type x.distance x.duration x.cadence x.elevation
  generalize (s._showForm x.mapE).app.run
    (fillForm x.type x.distance x.duration x.cadence x.elevation) = s2
    at hrun ht hd hdu hc he hmap hme hw hen
  have hme2 : s2.mapEvent = some x.mapE := by rw [hme]; rfl
  have hmap2 : s2.map = some m := by rw [hmap]; exact hm
  have hw2 : s2.workouts = s.workouts := by rw [hw]; rfl
  have hen2 : s2.entries = s.entries := by rw [hen]; rfl
  rw [hrun]
  rcases hv with ⟨hty, hp⟩ | ⟨hty, hp⟩
  · have hp2 : RunningPolicy s2.form.distance s2.form.duration s2.form.cadence := by
      simpa [FormEl.distance, FormEl.duration, FormEl.cadence, hd, hdu, hc] using hp
    rw [newWorkout_running_valid x.c s2 x.mapE hme2 (ht.trans hty) hp2]
    obtain ⟨_, h2, ⟨entry, h3, h4⟩, ⟨m', h5, h6, _⟩⟩ := pushAndRender_loaded
      (Running.new x.c x.mapE.latlng s2.form.distance s2.form.duration s2.form.cadence)
      s2 m hmap2
    exact ⟨Running.new x.c x.mapE.latlng s2.form.distance s2.form.duration s2.form.cadence,
      entry, m', rfl, h3, by rw [h2, hw2], by rw [h4, hen2], h5, by rw [h6, hl]⟩
  · have hp2 : CyclingPolicy s2.form.distance s2.form.duration s2.form.elevation := by
      simpa [FormEl.distance, FormEl.duration, FormEl.elevation, hd, hdu, he] using hp
    rw [newWorkout_cycling_valid x.c s2 x.mapE hme2 (ht.trans hty) hp2]
    obtain ⟨_, h2, ⟨entry, h3, h4⟩, ⟨m', h5, h6, _⟩⟩ := pushAndRender_loaded
      (Cycling.new x.c x.mapE.latlng s2.form.distance s2.form.duration s2.form.elevation)
      s2 m hmap2
    exact ⟨Cycling.new x.c x.mapE.latlng s2.form.distance s2.form.duration s2.form.elevation,
      entry, m', rfl, h3, by rw [h2, hw2], by rw [h4, hen2], h5, by rw [h6, hl]⟩

theorem createAll_ids (xs : List Submission) :
    ∀ (s : App) (m : LMap), s.map = some m → m.clickListener = true →
      (∀ x ∈ xs, x.Valid) →
      (s.createAll xs).workouts.map (Option.map Workout.id) =
          s.workouts.map (Option.map Workout.id) ++ xs.map (fun x => some x.c.id) ∧
        (s.createAll xs).entries.map ListEntry.dataId =
          (xs.map (fun x => x.c.id)).reverse ++ s.entries.map ListEntry.dataId := by
  induction xs with
  | nil =>
    intro s m _ _ _
    simp [App.createAll]
  | cons x rest ih =>
    intro s m hm hl hv
    obtain ⟨w, entry, m', hwid, heid, hws, hes, hm', hl'⟩ :=
      create_step s m x hm hl (hv x (List.mem_cons_self _ _))
    obtain ⟨ih1, ih2⟩ := ih (s.run x.events) m' hm' hl'
      (fun y hy => hv y (List.mem_cons_of_mem _ hy))
    have hcons : s.createAll (x :: rest) = (s.run x.events).createAll rest := rfl
    rw [hcons, ih1, ih2, hws, hes]
    simp [hwid, heid]

theorem firstSubmission_valid : firstSubmission.Valid :=
  Or.inl ⟨by decide, (runningPolicy_iff _ _ _).mpr ⟨by decide, by decide⟩⟩

theorem secondSubmission_valid : secondSubmission.Valid :=
  Or.inr ⟨by decide, (cyclingPolicy_iff _ _ _).mpr ⟨by decide, by decide⟩⟩

/-- C8 on the code: after two successful creations the collection holds the first
workout and then the second, while the rendered list shows the entry of the
second workout before the entry of the first; the new entry was not placed at the
end, and the order of the list is not the order of the collection. -/
theorem entries_not_in_insertion_order :
    twoWorkouts.workouts.map (Option.map Workout.id) =
        [some "1111111111", some "2222222222"] ∧
      twoWorkouts.entries.map ListEntry.dataId = ["2222222222", "1111111111"] ∧
      (mapReady.createAll [firstSubmission]).entries.map ListEntry.dataId = ["1111111111"] ∧
      ¬ (twoWorkouts.entries.map (fun e => some e.dataId) =
          twoWorkouts.workouts.map (Option.map Workout.id)) := by
  decide

/-- C8 as amended: for every sequence of successful workout creations on a loaded
map, the collection grows in insertion order, while `_renderWorkout` places each
new list entry first, right after the form and before all entries rendered
earlier; so a list that showed the collection in reverse order still does. -/
theorem entries_newest_first (s : App) (m : LMap) (xs : List Submission)
    (hmap : s.map = some m) (hlisten : m.clickListener = true)
    (hvalid : ∀ x ∈ xs, x.Valid) :
    (s.createAll xs).workouts.map (Option.map Workout.id) =
        s.workouts.map (Option.map Workout.id) ++ xs.map (fun x => some x.c.id) ∧
      (s.createAll xs).entries.map ListEntry.dataId =
        (xs.map (fun x => x.c.id)).reverse ++ s.entries.map ListEntry.dataId ∧
      (s.entries.map (fun e => some e.dataId) =
          (s.workouts.map (Option.map Workout.id)).reverse →
        (s.createAll xs).entries.map (fun e => some e.dataId) =
          ((s.createAll xs).workouts.map (Option.map Workout.id)).reverse) := by
  obtain ⟨h1, h2⟩ := createAll_ids xs s m hmap hlisten hvalid
  refine ⟨h1, h2, ?_⟩
  intro hsync
  have h3 : (s.createAll xs).entries.map (fun e => some e.dataId) =
      ((s.createAll xs).entries.map ListEntry.dataId).map some := by
    simp
  have h4 : s.entries.map (fun e => some e.dataId) =
      (s.entries.map ListEntry.dataId).map some := by
    simp
  rw [h3, h2, h1, List.reverse_append, ← hsync, h4]
  simp

/-- The witness of C8 as amended: the two creations on the loaded map; the list
shows the second workout first. -/
theorem entries_newest_first_witness :
    (∀ x ∈ [firstSubmission, secondSubmission], x.Valid) ∧
    (mapReady.createAll [firstSubmission, secondSubmission]).entries.map ListEntry.dataId =
      ["2222222222", "1111111111"] := by
  have hvalid : ∀ x ∈ [firstSubmission, secondSubmission], x.Valid := by
    intro x hx
    simp only [List.mem_cons, List.mem_singleton, List.not_mem_nil, or_false] at hx
    rcases hx with rfl | rfl
    · exact firstSubmission_valid
    · exact secondSubmission_valid
  obtain ⟨m, hm⟩ : ∃ m, mapReady.map = some m := Option.isSome_iff_exists.mp (by decide)
  have hl : m.clickListener = true := by
    have hall : ∀ m' ∈ mapReady.map, m'.clickListener = true := by decide
    exact hall m hm
  exact ⟨hvalid,
    (entries_newest_first mapReady m [firstSubmission, secondSubmission] hm hl hvalid).2.1⟩

/-! ## The entries of the collection -/

/-- C7 on the code: after the map has loaded and the user has clicked on it, a
submission whose activity type is `swimming` runs neither branch of
`_newWorkout`, appends `undefined` to the collection and then throws a
`TypeError` in `_renderWorkoutMarker`; the collection of the state reached holds
an entry that is no workout. -/
theorem unknown_type_pushes_undefined :
    (formOpen.run (fillForm "swimming" "5" "30" "150" "")).mapEvent = some exampleClick ∧
    ((formOpen.run (fillForm "swimming" "5" "30" "150" ""))._newWorkout creation1).app.workouts
      = [none] ∧
    ((formOpen.run (fillForm "swimming" "5" "30" "150" ""))._newWorkout creation1).thrown
      = some JSError.TypeError ∧
    ¬ (∀ x ∈ ((App.initial exampleForm).run
          ([Event.position ⟨JSNum.fin 52, JSNum.fin 20⟩, Event.mapClick exampleClick] ++
            fillForm "swimming" "5" "30" "150" "" ++ [Event.submit creation1])).workouts,
        WorkoutOk x) := by
  refine ⟨by decide, by decide, by decide, ?_⟩
  intro h
  have hmem : none ∈ ((App.initial exampleForm).run
      ([Event.position ⟨JSNum.fin 52, JSNum.fin 20⟩, Event.mapClick exampleClick] ++
        fillForm "swimming" "5" "30" "150" "" ++ [Event.submit creation1])).workouts := by
    decide
  exact h none hmem

theorem pushAndRender_inputType (workout : Option Workout) (s : App) :
    (s.pushAndRender workout).app.form.inputType = s.form.inputType := by
  unfold App.pushAndRender App._renderWorkoutMarker App._renderWorkout App._hideForm
  cases workout with
  | none => simp
  | some w =>
    cases hm : s.map with
    | none => simp [hm]
    | some m => simp [hm]

theorem moveToPopup_keeps (target : Option WorkoutEl) (s : App) :
    (s._moveToPopup target).app.form = s.form ∧
      (s._moveToPopup target).app.workouts = s.workouts := by
  unfold App._moveToPopup
  cases target with
  | none => simp
  | some workoutEl =>
    cases hf : findById workoutEl.dataId s.workouts with
    | error err => simp [hf]
    | ok workout =>
      cases hm : s.map with
      | none => simp [hf, hm]
      | some m => cases workout <;> simp [hf, hm]

theorem newWorkout_preserves_inv (c : Creation) (s : App) (h : s.Inv) :
    (s._newWorkout c).app.Inv := by
  cases hme : s.mapEvent with
  | none =>
    have : s._newWorkout c = { app := s, thrown := some JSError.TypeError } := by
      unfold App._newWorkout
      simp [hme]
    rw [this]
    exact h
  | some mapE =>
    rcases h.1 with ht | ht
    · by_cases hp : RunningPolicy s.form.distance s.form.duration s.form.cadence
      · rw [newWorkout_running_valid c s mapE hme ht hp]
        refine ⟨by rw [pushAndRender_inputType]; exact h.1, ?_⟩
        rw [pushAndRender_workouts]
        intro x hx
        rcases List.mem_append.mp hx with hx | hx
        · exact h.2 x hx
        · rw [List.mem_singleton.mp hx]
          exact hp.2
      · rw [newWorkout_running_invalid c s mapE hme ht hp]
        exact h
    · by_cases hp : CyclingPolicy s.form.distance s.form.duration s.form.elevation
      · rw [newWorkout_cycling_valid c s mapE hme ht hp]
        refine ⟨by rw [pushAndRender_inputType]; exact h.1, ?_⟩
        rw [pushAndRender_workouts]
        intro x hx
        rcases List.mem_append.mp hx with hx | hx
        · exact h.2 x hx
        · rw [List.mem_singleton.mp hx]
          exact hp.2
      · rw [newWorkout_cycling_invalid c s mapE hme ht hp]
        exact h

theorem step_preserves_inv (s : App) (e : Event) (hknown : e.KnownType) (h : s.Inv) :
    (s.step e).Inv := by
  cases e with
  | position coords =>
    unfold App.step
    cases hm : s.map with
    | none => exact h
    | some m => exact h
  | positionError => exact h
  | mapClick mapE =>
    unfold App.step
    cases hm : s.map with
    | none => exact h
    | some m =>
      by_cases hl : m.clickListener = true
      · simp only [hl, if_true]
        exact h
      · simp only [hl]
        exact h
  | input field value =>
    cases field <;> exact h
  | select value =>
    unfold App.step
    by_cases hv : value = s.form.inputType
    · simp only [hv, if_true]
      exact h
    · simp only [hv, if_false]
      exact ⟨hknown, h.2⟩
  | submit c => exact newWorkout_preserves_inv c s h
  | listClick target =>
    obtain ⟨hf, hw⟩ := moveToPopup_keeps target s
    unfold App.step App.Inv
    rw [hf, hw]
    exact h
  | timer =>
    unfold App.step
    by_cases ht : s.timers = 0
    · simp only [ht, if_true]
      exact h
    · simp only [ht, if_false]
      exact h

/-- What holds of C7 on the code: as long as the activity type is `running` or
`cycling` whenever it is set, every entry of the collection stays a workout with
positive distance and duration and, for a Running, positive cadence, after any
sequence of events and whatever the field values. -/
theorem workouts_valid_of_known_types (events : List Event) :
    ∀ s : App, s.Inv → (∀ e ∈ events, e.KnownType) → (s.run events).Inv := by
  induction events with
  | nil =>
    intro s h _
    exact h
  | cons e rest ih =>
    intro s h hknown
    exact ih (s.step e)
      (step_preserves_inv s e (hknown e (List.mem_cons_self _ _)) h)
      (fun e' he' => hknown e' (List.mem_cons_of_mem _ he'))

end Mapty
